import Mathlib

/-
  Verification of the OPENSEARCH_INTERMEDIATE_TUTORIAL repository.

  This file shallowly embeds the small amount of local logic the repository
  implements — the ML-task polling loops, the model-deployment wait helper,
  the pandas-dtype-to-OpenSearch-type mapping, the Redis scratch-state
  accessors of the generic ingest/search app, the search-as-you-type client
  and FastAPI handlers, and the HTTP route inventories of the demo apps —
  and proves or refutes the frozen claims about them.

  Conventions of the embedding:
  * A `while True:` loop is embedded as a fuel-indexed recursion: the loop
    run from iteration `i` with `fuel` remaining checks returns `none` when
    it has not exited within `fuel` checks.  The loop terminates on a given
    input iff some fuel makes it return `some`.
  * The sequence of HTTP responses a loop observes is a function `Nat → _`
    (the response to the n-th check).
  * `time.sleep(10)` calls are recorded in an output list of sleep durations.
  * Python exceptions are `Except`; a function argument of type
    `Unit → Except String _` stands for one guarded HTTP call.
  * Redis is a partial map `String → Option String` (absent = expired or
    deleted); JSON (de)serialisation is abstracted by passing serialised
    payloads / parse functions through.
-/

namespace OSTutorial

/-! ## ML task status responses

`/_plugins/_ml/tasks/{id}` responses, as consumed by the polling loops:
the scripts read `task_status['state']` and, on completion,
`task_status['model_id']`. -/

structure MLTask where
  state : String
  model_id : String
deriving DecidableEq

/-- The registration poll loop in `register_model` of
`5. AGENTIC_SEARCH/4. reranking/1. reranking_cross_encoder_msmarco.py`
(lines 80–91):
```
while True:
    task_status = GET /_plugins/_ml/tasks/{register_task_id}
    if task_status['state'] == 'COMPLETED':
        model_id = task_status['model_id']
        break
    time.sleep(10)
return model_id
```
`ts n` is the n-th status response; the result is the returned `model_id`
together with the list of sleep durations performed, or `none` if the loop
has not exited within `fuel` checks. -/
def register_model_poll (ts : Nat → MLTask) : Nat → Nat → Option (String × List Nat)
  | _, 0 => none
  | i, fuel + 1 =>
    if (ts i).state = "COMPLETED" then
      some ((ts i).model_id, [])
    else
      match register_model_poll ts (i + 1) fuel with
      | some (m, sleeps) => some (m, 10 :: sleeps)
      | none => none

/-- The module-level registration poll loop of
`5. AGENTIC_SEARCH/2. custom_models/os_client_custom_model_QA_ingest_pipeline.py`
(lines 224–233): textually the same `while True` /
`if state == 'COMPLETED': model_id = ...; break` / `time.sleep(10)` loop. -/
def qa_register_poll (ts : Nat → MLTask) : Nat → Nat → Option (String × List Nat)
  | _, 0 => none
  | i, fuel + 1 =>
    if (ts i).state = "COMPLETED" then
      some ((ts i).model_id, [])
    else
      match qa_register_poll ts (i + 1) fuel with
      | some (m, sleeps) => some (m, 10 :: sleeps)
      | none => none

/-- The deployment poll loop of the QA ingest-pipeline script (lines 245–254):
same loop but it only breaks on `'COMPLETED'` without reading a model id. -/
def qa_deploy_poll (ts : Nat → MLTask) : Nat → Nat → Option (List Nat)
  | _, 0 => none
  | i, fuel + 1 =>
    if (ts i).state = "COMPLETED" then
      some []
    else
      match qa_deploy_poll ts (i + 1) fuel with
      | some sleeps => some (10 :: sleeps)
      | none => none

/-- The registration poll loop inside `create_embedding_model` of
`5. AGENTIC_SEARCH/5. agents_tools/agent_helpers.py` (lines 139–150):
```
while True:
    embedding_model_status = GET /_plugins/_ml/tasks/{embedding_task_id}
    status_state = embedding_model_status['state']
    if status_state == 'COMPLETED':
        embedding_model_id = embedding_model_status['model_id']
        break
    time.sleep(10)
```
-/
def create_embedding_model_poll (ts : Nat → MLTask) : Nat → Nat → Option (String × List Nat)
  | _, 0 => none
  | i, fuel + 1 =>
    if (ts i).state = "COMPLETED" then
      some ((ts i).model_id, [])
    else
      match create_embedding_model_poll ts (i + 1) fuel with
      | some (m, sleeps) => some (m, 10 :: sleeps)
      | none => none

/-! ## `wait_for_model_deployment` (agent_helpers.py lines 79–113)

Each iteration performs a guarded status request.  `resp n = none` models
the request raising an exception on the n-th iteration (the `except` arm:
print, sleep, continue); `resp n = some st` models a successful response
with `model_state = st`.  `elapsed n` is the value of
`time.time() - start_time` at the n-th successful check. -/

def wait_for_model_deployment (resp : Nat → Option String) (elapsed : Nat → Nat)
    (timeout : Nat) : Nat → Nat → Option Bool
  | _, 0 => none
  | i, fuel + 1 =>
    match resp i with
    | some st =>
      if st = "DEPLOYED" then some true
      else if st = "FAILED" then some false
      else if timeout < elapsed i then some false
      else wait_for_model_deployment resp elapsed timeout (i + 1) fuel
    | none => wait_for_model_deployment resp elapsed timeout (i + 1) fuel

/-- An iteration of `wait_for_model_deployment` that falls through to the
next iteration: either the request raised, or the state was neither
`DEPLOYED` nor `FAILED` and the elapsed time had not exceeded the timeout. -/
def deploy_continues (resp : Nat → Option String) (elapsed : Nat → Nat)
    (timeout m : Nat) : Bool :=
  match resp m with
  | some st => st != "DEPLOYED" && st != "FAILED" && Nat.ble (elapsed m) timeout
  | none => true

/-! ## `FileProcessingService.pandas_dtype_to_opensearch`
(`generic_ingest_search_app/backend/app/services/file_service.py`, lines 173–213) -/

/-- The exact-match table `dtype_mapping` of `pandas_dtype_to_opensearch`. -/
def dtype_mapping : List (String × String) :=
  [("int64", "long"),
   ("int32", "integer"),
   ("float64", "double"),
   ("float32", "float"),
   ("bool", "boolean"),
   ("object", "text"),
   ("datetime64", "date"),
   ("datetime64[ns]", "date"),
   ("timedelta64", "long"),
   ("category", "keyword")]

/-- Python `str.lower()`; dtype strings are ASCII, where `Char.toLower`
agrees with Python. -/
def pyLower (s : String) : String := String.mk (s.data.map Char.toLower)

/-- Python's `needle in hay` on strings: contiguous-substring containment,
on the character lists. -/
def py_in (needle hay : List Char) : Bool :=
  hay.tails.any fun t => needle.isPrefixOf t

/-- `pandas_dtype_to_opensearch`: lowercase the dtype string, try the exact
table, then the substring checks `'int' in`, `'float' in`, `'bool' in`,
`'datetime' in` in that order, defaulting to `"text"`.  Python's `in` on
strings is contiguous-substring containment, i.e. `List.isInfixOf` on the
character lists; Python dict lookup is `List.lookup` (the table keys are
distinct). -/
def pandas_dtype_to_opensearch (pandas_dtype : String) : String :=
  let dtype_str := pyLower pandas_dtype
  match dtype_mapping.lookup dtype_str with
  | some t => t
  | none =>
    if py_in "int".data dtype_str.data then "long"
    else if py_in "float".data dtype_str.data then "double"
    else if py_in "bool".data dtype_str.data then "boolean"
    else if py_in "datetime".data dtype_str.data then "date"
    else "text"

/-! ## Python whitespace / truthiness helpers for the query guards -/

/-- The characters Python's `str.strip()` removes (the ASCII whitespace
set; the repository's queries are ASCII). -/
def py_is_space (c : Char) : Bool :=
  c ∈ [' ', '\t', '\n', '\r', '\x0b', '\x0c']

/-- Python `s.strip()`. -/
def py_strip (s : String) : String :=
  String.mk (((s.data.dropWhile py_is_space).reverse.dropWhile py_is_space).reverse)

/-- The guard `not query or not query.strip()` used by
`OpenSearchClient.search_as_you_type` and `OpenSearchClient.get_suggestions`
(a string is falsy in Python iff it is empty). -/
def falsy_or_blank (q : String) : Bool :=
  (q == "") || (py_strip q == "")

/-! ## OpenSearch search responses and their reshaping

A raw search response, as read by the handlers: `took`, `hits.total.value`,
and the hit list with `_id`, `_score`, `_source` and optional `highlight`.
Scores are never computed on locally, and `_source` documents are only
passed through or used for field lookup, so the embedding is parametric in
the score type `α` and (where possible) the source type `σ`. -/

structure OSHit (α σ : Type) where
  id : String
  score : α
  source : σ
  highlight : Option (List (String × List String)) := none

structure OSHits (α σ : Type) where
  total_value : Nat
  hits : List (OSHit α σ)

structure OSResponse (α σ : Type) where
  took : Nat
  hits : OSHits α σ

/-- `OpenSearchClient.search_as_you_type`
(`1. search_as_you_type/backend/opensearch_client.py`, lines 26–110):
on a falsy-or-blank query it returns
`{"hits": {"total": {"value": 0}, "hits": []}, "took": 0}` without issuing
a request; otherwise it issues one search request and, in the
`except` arm, logs and re-`raise`s.  `serve` is the one guarded
`client.search` call; the first component of the result counts the
requests issued. -/
def client_search_as_you_type {α σ : Type}
    (serve : Unit → Except String (OSResponse α σ)) (query : String) :
    Nat × Except String (OSResponse α σ) :=
  if falsy_or_blank query then
    (0, Except.ok { took := 0, hits := { total_value := 0, hits := [] } })
  else
    (1, serve ())

/-- `OpenSearchClient.get_suggestions` (same file, lines 112–159):
on a falsy-or-blank query it returns `[]` without issuing a request;
otherwise it issues one search request, collects `source[field]` for each
hit whose source has the field, deduplicates (`list(set(...))`, embedded
as `List.eraseDups`; CPython's set ordering is unspecified) and truncates
to `size`; in the `except` arm it logs and returns `[]`.  Sources are
string-valued dicts here because the code reads `source[field]`. -/
def client_get_suggestions {α : Type}
    (serve : Unit → Except String (OSResponse α (List (String × String))))
    (query field : String) (size : Nat) : Nat × List String :=
  if falsy_or_blank query then
    (0, [])
  else
    (1, match serve () with
        | Except.ok r =>
          ((r.hits.hits.filterMap fun h => h.source.lookup field).eraseDups).take size
        | Except.error _ => [])

/-- `FastAPI.HTTPException(status_code, detail)`. -/
structure HTTPError where
  status : Nat
  detail : String
deriving DecidableEq

/-- One output hit of the `POST /api/search` handler of search_as_you_type
(the Pydantic `SearchHit`). -/
structure SearchHitOut (α σ : Type) where
  id : String
  score : α
  source : σ
  highlight : Option (List (String × List String))

/-- The Pydantic `SearchResponse` of search_as_you_type. -/
structure SearchResponseOut (α σ : Type) where
  total : Nat
  took : Nat
  hits : List (SearchHitOut α σ)
  query : String

/-- The result-transformation part of the `POST /api/search` handler
(`1. search_as_you_type/backend/main.py`, lines 86–103): build a
`SearchHit(id=hit["_id"], score=hit["_score"], source=hit["_source"],
highlight=hit.get("highlight"))` for each hit in order, then a
`SearchResponse` with `total = results["hits"]["total"]["value"]` and
`took = results["took"]`. -/
def sayt_transform {α σ : Type} (results : OSResponse α σ) (query : String) :
    SearchResponseOut α σ :=
  { total := results.hits.total_value
  , took := results.took
  , hits := results.hits.hits.map fun h => ⟨h.id, h.score, h.source, h.highlight⟩
  , query := query }

/-- The full `POST /api/search` handler (main.py lines 78–106): call
`client.search_as_you_type`, transform on success, and in the
`except Exception` arm log and
`raise HTTPException(status_code=500, detail=f"Search failed: {str(e)}")`. -/
def sayt_search_route {α σ : Type}
    (serve : Unit → Except String (OSResponse α σ)) (query : String) :
    Except HTTPError (SearchResponseOut α σ) :=
  match (client_search_as_you_type serve query).2 with
  | Except.ok r => Except.ok (sayt_transform r query)
  | Except.error e => Except.error { status := 500, detail := "Search failed: " ++ e }

/-- The `POST /api/suggestions` handler (main.py lines 109–133), over the
outcome of its `try` body (the `client.get_suggestions` call): on success
return `SuggestionResponse(suggestions, query)`, in the `except Exception`
arm `raise HTTPException(500, f"Suggestion failed: {str(e)}")`. -/
def sayt_suggestions_route (body : Except String (List String)) (query : String) :
    Except HTTPError (List String × String) :=
  match body with
  | Except.ok suggestions => Except.ok (suggestions, query)
  | Except.error e => Except.error { status := 500, detail := "Suggestion failed: " ++ e }

/-- An exception escaping the `try` body of a generic-app route handler:
either an inner `HTTPException` or some other Python exception. -/
inductive PyErr where
  | http : HTTPError → PyErr
  | exn : String → PyErr

/-- `SearchService._format_response`
(`generic_ingest_search_app/backend/app/services/search_service.py`,
lines 351–367): the formatted dict with `id`/`score`/`source` per hit,
`total = response['hits']['total']['value']`, `took = response['took']`
and the `search_type` label. -/
structure FormattedResponse (α σ : Type) where
  hits : List (SearchHitOut α σ)
  total : Nat
  took : Nat
  search_type : String

/-- `_format_response` itself.  The source appends `{"id": hit['_id'],
"score": hit['_score'], "source": hit['_source']}` for each hit in order;
the formatted hits carry no highlight (`none`). -/
def format_response {α σ : Type} (response : OSResponse α σ) (search_type : String) :
    FormattedResponse α σ :=
  { hits := response.hits.hits.map fun h => ⟨h.id, h.score, h.source, none⟩
  , total := response.hits.total_value
  , took := response.took
  , search_type := search_type }

/-- The `POST /api/search/execute` handler
(`generic_ingest_search_app/backend/app/routes/search.py`, lines 37–100),
over the outcome of its `try` body: `except HTTPException: raise`
re-raises inner HTTP errors unchanged, and `except Exception as e:
raise HTTPException(status_code=500, detail=str(e))` maps any other
exception to a 500. -/
def execute_search_route {α σ : Type} (body : Except PyErr (FormattedResponse α σ)) :
    Except HTTPError (FormattedResponse α σ) :=
  match body with
  | Except.ok r => Except.ok r
  | Except.error (PyErr.http e) => Except.error e
  | Except.error (PyErr.exn m) => Except.error { status := 500, detail := m }

/-! ## Redis scratch state of the generic ingest/search app
(`file_service.py`)

The only Redis writes in the whole repository are the four `setex` calls of
`FileProcessingService` (file_service.py lines 60, 128, 245, 260);
`cleanup_file` only issues deletes.  A write is a `(key, ttl, value)`
triple; reads see a partial map `String → Option String` (`none` models an
absent — expired or deleted — key; `redis.Redis` is created with
`decode_responses=True`, so values are strings). -/

inductive RedisCmd where
  | setex : String → Nat → String → RedisCmd
  | del : String → RedisCmd
deriving DecidableEq

/-- The Redis write of `save_uploaded_file` (lines 53–74):
`setex(f"file_metadata:{file_id}", 3600 * 24, json.dumps(metadata))`. -/
def save_uploaded_file_writes (file_id meta_json : String) : List RedisCmd :=
  [RedisCmd.setex ("file_metadata:" ++ file_id) (3600 * 24) meta_json]

/-- The Redis write of `load_dataframe` (lines 120–132):
`setex(f"df_info:{file_id}", 3600 * 24, json.dumps(df_info))`. -/
def load_dataframe_writes (file_id df_info_json : String) : List RedisCmd :=
  [RedisCmd.setex ("df_info:" ++ file_id) (3600 * 24) df_info_json]

/-- The Redis write of `store_mappings` (lines 243–248). -/
def store_mappings_writes (file_id mappings_json : String) : List RedisCmd :=
  [RedisCmd.setex ("mappings:" ++ file_id) (3600 * 24) mappings_json]

/-- The Redis write of `store_knn_selections` (lines 258–263). -/
def store_knn_selections_writes (file_id knn_json : String) : List RedisCmd :=
  [RedisCmd.setex ("knn_columns:" ++ file_id) (3600 * 24) knn_json]

/-- All Redis writes `FileProcessingService` can issue, over arbitrary
serialised payloads. -/
def file_service_writes (file_id meta df mp knn : String) : List RedisCmd :=
  save_uploaded_file_writes file_id meta ++ load_dataframe_writes file_id df ++
    store_mappings_writes file_id mp ++ store_knn_selections_writes file_id knn

/-- `get_file_metadata` (lines 69–74): `data = get(key); if data:
return json.loads(data); return None`.  Python truthiness: the empty
string is falsy.  The parsed JSON document is returned as its serialised
form. -/
def get_file_metadata (store : String → Option String) (file_id : String) :
    Option String :=
  match store ("file_metadata:" ++ file_id) with
  | some data => if data = "" then none else some data
  | none => none

/-- `get_mappings` (lines 250–255): same shape as `get_file_metadata`. -/
def get_mappings (store : String → Option String) (file_id : String) :
    Option String :=
  match store ("mappings:" ++ file_id) with
  | some data => if data = "" then none else some data
  | none => none

/-- `get_knn_selections` (lines 265–270): `if data: return
json.loads(data); return []` — the absent (or empty) case yields the empty
list.  `parse` abstracts `json.loads` on the stored list of column dicts. -/
def get_knn_selections (store : String → Option String)
    (parse : String → List (String × String)) (file_id : String) :
    List (String × String) :=
  match store ("knn_columns:" ++ file_id) with
  | some data => if data = "" then [] else parse data
  | none => []

/-! ## Route handler effect traces (demo-app FastAPI routes)

Each FastAPI route handler of the two FastAPI demo backends
(search_as_you_type and generic_ingest_search_app — the other demo apps
are Gradio/Streamlit UIs with no FastAPI routes) is a straight-line
sequence of effects.  `Act.call` is one blocking or awaited unit of work
(an HTTP/Redis/disk call that completes before the next action starts);
`Act.spawn` is an `asyncio.create_task(...)` that starts background work
running concurrently with the rest of the handler. -/

inductive Act where
  | call : String → Act
  | spawn : String → Act
deriving DecidableEq

/-- Whether a handler trace starts background work concurrent with the
handler. -/
def spawns_background (acts : List Act) : Bool :=
  acts.any fun a => match a with
    | Act.spawn _ => true
    | Act.call _ => false

/-- `POST /api/ingest/ingest-stream` (`ingest.py` lines 351–430,
`ingest_data_stream`): the SSE generator creates a queue, starts the
ingestion in the background with `asyncio.create_task(run_ingestion())`
(line 400), and then concurrently consumes the progress queue to stream
updates (the progress callback itself issues further
`asyncio.create_task(progress_queue.put(update))` calls, line 369). -/
def ingest_stream_acts : List Act :=
  [Act.spawn "run_ingestion", Act.call "stream progress updates from queue"]

/-- Effect traces of every FastAPI route of the two FastAPI demo backends,
keyed by method and full path (router prefixes `/api/auth`, `/api/ingest`,
`/api/search` included).  Calls are listed in handler program order. -/
def demo_app_routes : List (String × List Act) :=
  [ -- search_as_you_type backend/main.py
    ("sayt GET /", []),
    ("sayt GET /api/health", [Act.call "cluster.health"]),
    ("sayt POST /api/search", [Act.call "client.search"]),
    ("sayt POST /api/suggestions", [Act.call "client.search"]),
    ("sayt GET /api/search-fields", []),
    -- generic_ingest_search_app backend/main.py
    ("generic GET /", []),
    ("generic GET /health", [Act.call "cluster.health"]),
    -- routes/auth.py (JWT encode/decode is local, no external call)
    ("generic POST /api/auth/login", []),
    ("generic GET /api/auth/me", []),
    ("generic POST /api/auth/logout", []),
    -- routes/ingest.py
    ("generic POST /api/ingest/upload",
      [Act.call "await file.read", Act.call "save_uploaded_file",
       Act.call "load_dataframe"]),
    ("generic POST /api/ingest/preview", [Act.call "get_data_preview"]),
    ("generic POST /api/ingest/get-columns", [Act.call "load_dataframe"]),
    ("generic POST /api/ingest/suggest-mappings",
      [Act.call "load_dataframe", Act.call "suggest_mappings"]),
    ("generic POST /api/ingest/confirm-mappings", [Act.call "store_mappings"]),
    ("generic GET /api/ingest/available-models",
      [Act.call "get_available_models"]),
    ("generic POST /api/ingest/confirm-knn", [Act.call "store_knn_selections"]),
    ("generic POST /api/ingest/ingest-summary",
      [Act.call "get_file_metadata", Act.call "redis get df_info",
       Act.call "get_mappings", Act.call "get_knn_selections"]),
    ("generic POST /api/ingest/ingest-stream", ingest_stream_acts),
    ("generic POST /api/ingest/ingest", [Act.call "ingest_data"]),
    -- routes/search.py
    ("generic GET /api/search/indices", [Act.call "get_all_indices"]),
    ("generic POST /api/search/execute",
      [Act.call "index_exists", Act.call "search_service search"]),
    ("generic POST /api/search/execute-with-agent",
      [Act.call "initialize_agent if needed", Act.call "execute_with_agent"])]

/-! ## HTTP route inventories (method, path) of the three named backends -/

/-- Routes defined by `1. search_as_you_type/backend/main.py`. -/
def sayt_routes : List (String × String) :=
  [("GET", "/"),
   ("GET", "/api/health"),
   ("POST", "/api/search"),
   ("POST", "/api/suggestions"),
   ("GET", "/api/search-fields")]

/-- Routes defined by `9. generic_ingest_search_app/backend` (main.py plus
the routers included with prefixes `/api/auth`, `/api/ingest`,
`/api/search`). -/
def generic_app_routes : List (String × String) :=
  [("GET", "/"),
   ("GET", "/health"),
   ("POST", "/api/auth/login"),
   ("GET", "/api/auth/me"),
   ("POST", "/api/auth/logout"),
   ("POST", "/api/ingest/upload"),
   ("POST", "/api/ingest/preview"),
   ("POST", "/api/ingest/get-columns"),
   ("POST", "/api/ingest/suggest-mappings"),
   ("POST", "/api/ingest/confirm-mappings"),
   ("GET", "/api/ingest/available-models"),
   ("POST", "/api/ingest/confirm-knn"),
   ("POST", "/api/ingest/ingest-summary"),
   ("POST", "/api/ingest/ingest-stream"),
   ("POST", "/api/ingest/ingest"),
   ("GET", "/api/search/indices"),
   ("POST", "/api/search/execute"),
   ("POST", "/api/search/execute-with-agent")]

/-- Routes defined by `8. opensearch_mcp_server_app`: its `app.py` is a
Gradio UI (`gr.Blocks`/`gr.Tab`) and the package defines no FastAPI app,
router, or HTTP route of its own. -/
def mcp_app_routes : List (String × String) := []

/-! ## Lemmas about the polling loops -/

theorem register_model_poll_no_completed (ts : Nat → MLTask)
    (h : ∀ n, (ts n).state ≠ "COMPLETED") :
    ∀ fuel i, register_model_poll ts i fuel = none := by
  intro fuel
  induction fuel with
  | zero => intro i; rfl
  | succ f ih => intro i; simp [register_model_poll, h i, ih (i + 1)]

theorem register_model_poll_first_completed (ts : Nat → MLTask) :
    ∀ n i fuel, (∀ m, m < n → (ts (i + m)).state ≠ "COMPLETED") →
      (ts (i + n)).state = "COMPLETED" → n < fuel →
      register_model_poll ts i fuel =
        some ((ts (i + n)).model_id, List.replicate n 10) := by
  intro n
  induction n with
  | zero =>
    intro i fuel _ hc hf
    cases fuel with
    | zero => omega
    | succ f => simp only [register_model_poll]; rw [if_pos (by simpa using hc)]; simp
  | succ n ih =>
    intro i fuel hlt hc hf
    cases fuel with
    | zero => omega
    | succ f =>
      have h0 : (ts i).state ≠ "COMPLETED" := by simpa using hlt 0 (by omega)
      have hidx : i + (n + 1) = (i + 1) + n := by omega
      rw [hidx] at hc ⊢
      have hrec := ih (i + 1) f
        (fun m hm => by
          have := hlt (m + 1) (by omega)
          have he : i + (m + 1) = (i + 1) + m := by omega
          rwa [he] at this)
        hc (by omega)
      simp [register_model_poll, h0, hrec, List.replicate]

theorem qa_register_poll_eq (ts : Nat → MLTask) :
    ∀ fuel i, qa_register_poll ts i fuel = register_model_poll ts i fuel := by
  intro fuel
  induction fuel with
  | zero => intro i; rfl
  | succ f ih => intro i; simp [qa_register_poll, register_model_poll, ih (i + 1)]

theorem create_embedding_model_poll_eq (ts : Nat → MLTask) :
    ∀ fuel i, create_embedding_model_poll ts i fuel = register_model_poll ts i fuel := by
  intro fuel
  induction fuel with
  | zero => intro i; rfl
  | succ f ih =>
    intro i; simp [create_embedding_model_poll, register_model_poll, ih (i + 1)]

theorem qa_deploy_poll_no_completed (ts : Nat → MLTask)
    (h : ∀ n, (ts n).state ≠ "COMPLETED") :
    ∀ fuel i, qa_deploy_poll ts i fuel = none := by
  intro fuel
  induction fuel with
  | zero => intro i; rfl
  | succ f ih => intro i; simp [qa_deploy_poll, h i, ih (i + 1)]

theorem qa_deploy_poll_first_completed (ts : Nat → MLTask) :
    ∀ n i fuel, (∀ m, m < n → (ts (i + m)).state ≠ "COMPLETED") →
      (ts (i + n)).state = "COMPLETED" → n < fuel →
      qa_deploy_poll ts i fuel = some (List.replicate n 10) := by
  intro n
  induction n with
  | zero =>
    intro i fuel _ hc hf
    cases fuel with
    | zero => omega
    | succ f => simp only [qa_deploy_poll]; rw [if_pos (by simpa using hc)]; simp
  | succ n ih =>
    intro i fuel hlt hc hf
    cases fuel with
    | zero => omega
    | succ f =>
      have h0 : (ts i).state ≠ "COMPLETED" := by simpa using hlt 0 (by omega)
      have hidx : i + (n + 1) = (i + 1) + n := by omega
      rw [hidx] at hc
      have hrec := ih (i + 1) f
        (fun m hm => by
          have := hlt (m + 1) (by omega)
          have he : i + (m + 1) = (i + 1) + m := by omega
          rwa [he] at this)
        hc (by omega)
      simp [qa_deploy_poll, h0, hrec, List.replicate]

/-- C1: every ML task-status polling loop (the registration poll in the
reranking script's `register_model`, the loop in
`agent_helpers.create_embedding_model`, and the two loops of the QA
ingest-pipeline script) sleeps a fixed 10 seconds between checks with no
backoff and exits only upon first observing state `COMPLETED`; on any
status sequence that never reports `COMPLETED` (e.g. `FAILED` forever) the
loop never terminates (no fuel bound suffices). -/
theorem polling_loops_fixed_sleep_unbounded :
    (∀ ts : Nat → MLTask, (∀ n, (ts n).state ≠ "COMPLETED") →
      ∀ i fuel,
        register_model_poll ts i fuel = none ∧
        create_embedding_model_poll ts i fuel = none ∧
        qa_register_poll ts i fuel = none ∧
        qa_deploy_poll ts i fuel = none) ∧
    (∀ (ts : Nat → MLTask) i n fuel,
      (∀ m, m < n → (ts (i + m)).state ≠ "COMPLETED") →
      (ts (i + n)).state = "COMPLETED" → n < fuel →
        register_model_poll ts i fuel =
          some ((ts (i + n)).model_id, List.replicate n 10) ∧
        create_embedding_model_poll ts i fuel =
          some ((ts (i + n)).model_id, List.replicate n 10) ∧
        qa_register_poll ts i fuel =
          some ((ts (i + n)).model_id, List.replicate n 10) ∧
        qa_deploy_poll ts i fuel = some (List.replicate n 10)) := by
  constructor
  · intro ts h i fuel
    refine ⟨register_model_poll_no_completed ts h fuel i, ?_, ?_,
      qa_deploy_poll_no_completed ts h fuel i⟩
    · rw [create_embedding_model_poll_eq]
      exact register_model_poll_no_completed ts h fuel i
    · rw [qa_register_poll_eq]
      exact register_model_poll_no_completed ts h fuel i
  · intro ts i n fuel hlt hc hf
    refine ⟨register_model_poll_first_completed ts n i fuel hlt hc hf, ?_, ?_,
      qa_deploy_poll_first_completed ts n i fuel hlt hc hf⟩
    · rw [create_embedding_model_poll_eq]
      exact register_model_poll_first_completed ts n i fuel hlt hc hf
    · rw [qa_register_poll_eq]
      exact register_model_poll_first_completed ts n i fuel hlt hc hf

/-- Witness for C1: on the constant-`FAILED` sequence no fuel suffices,
and on a sequence completing at the third check the loops return its
`model_id` after two 10-second sleeps. -/
theorem polling_loops_fixed_sleep_unbounded_witness :
    (register_model_poll (fun _ => ⟨"FAILED", "m0"⟩) 0 5 = none ∧
     qa_deploy_poll (fun _ => ⟨"FAILED", "m0"⟩) 0 5 = none) ∧
    register_model_poll
      (fun n => if n < 2 then ⟨"RUNNING", "x"⟩ else ⟨"COMPLETED", "model-42"⟩)
      0 5 = some ("model-42", [10, 10]) := by
  constructor
  · exact ⟨(polling_loops_fixed_sleep_unbounded.1 _ (fun n => by decide) 0 5).1,
      (polling_loops_fixed_sleep_unbounded.1 _ (fun n => by decide) 0 5).2.2.2⟩
  · have h := (polling_loops_fixed_sleep_unbounded.2
      (fun n => if n < 2 then ⟨"RUNNING", "x"⟩ else ⟨"COMPLETED", "model-42"⟩)
      0 2 5 (by decide) (by decide) (by decide)).1
    simpa using h

/-- C6: the three copy-pasted registration-status polling loops are
extensionally equal as functions of the status-response sequence: they
return the same result at every fuel bound, terminate exactly at the first
`COMPLETED` response, return that response's `model_id`, and sleep 10
seconds between consecutive checks. -/
theorem registration_polls_extensionally_equal :
    (∀ (ts : Nat → MLTask) i fuel,
      register_model_poll ts i fuel = qa_register_poll ts i fuel ∧
      register_model_poll ts i fuel = create_embedding_model_poll ts i fuel) ∧
    (∀ (ts : Nat → MLTask) n fuel,
      (∀ m, m < n → (ts m).state ≠ "COMPLETED") →
      (ts n).state = "COMPLETED" → n < fuel →
        register_model_poll ts 0 fuel = some ((ts n).model_id, List.replicate n 10) ∧
        qa_register_poll ts 0 fuel = some ((ts n).model_id, List.replicate n 10) ∧
        create_embedding_model_poll ts 0 fuel =
          some ((ts n).model_id, List.replicate n 10)) := by
  constructor
  · intro ts i fuel
    exact ⟨(qa_register_poll_eq ts fuel i).symm,
      (create_embedding_model_poll_eq ts fuel i).symm⟩
  · intro ts n fuel hlt hc hf
    have hbase := register_model_poll_first_completed ts n 0 fuel
      (fun m hm => by simpa using hlt m hm) (by simpa using hc) hf
    refine ⟨by simpa using hbase, ?_, ?_⟩
    · rw [qa_register_poll_eq]; simpa using hbase
    · rw [create_embedding_model_poll_eq]; simpa using hbase

/-- Witness for C6: concrete sequence completing at the second check —
all three loops agree and return `("m7", [10])`. -/
theorem registration_polls_extensionally_equal_witness :
    qa_register_poll
      (fun n => if n < 1 then ⟨"CREATED", "y"⟩ else ⟨"COMPLETED", "m7"⟩) 0 4 =
      some ("m7", [10]) ∧
    create_embedding_model_poll
      (fun n => if n < 1 then ⟨"CREATED", "y"⟩ else ⟨"COMPLETED", "m7"⟩) 0 4 =
      some ("m7", [10]) := by
  have h := (registration_polls_extensionally_equal.2
    (fun n => if n < 1 then ⟨"CREATED", "y"⟩ else ⟨"COMPLETED", "m7"⟩)
    1 4 (by decide) (by decide) (by decide))
  exact ⟨by simpa using h.2.1, by simpa using h.2.2⟩

/-! ## Lemmas about `wait_for_model_deployment` -/

theorem wait_for_model_deployment_all_raise (resp : Nat → Option String)
    (elapsed : Nat → Nat) (timeout : Nat) (h : ∀ m, resp m = none) :
    ∀ fuel i, wait_for_model_deployment resp elapsed timeout i fuel = none := by
  intro fuel
  induction fuel with
  | zero => intro i; rfl
  | succ f ih => intro i; simp [wait_for_model_deployment, h i, ih (i + 1)]

theorem wait_for_model_deployment_first_decision (resp : Nat → Option String)
    (elapsed : Nat → Nat) (timeout : Nat) :
    ∀ n i fuel, (∀ m, m < n → deploy_continues resp elapsed timeout (i + m) = true) →
      n < fuel →
      (resp (i + n) = some "DEPLOYED" →
        wait_for_model_deployment resp elapsed timeout i fuel = some true) ∧
      (resp (i + n) = some "FAILED" →
        wait_for_model_deployment resp elapsed timeout i fuel = some false) ∧
      (∀ st, resp (i + n) = some st → st ≠ "DEPLOYED" → st ≠ "FAILED" →
        timeout < elapsed (i + n) →
        wait_for_model_deployment resp elapsed timeout i fuel = some false) := by
  intro n
  induction n with
  | zero =>
    intro i fuel _ hf
    cases fuel with
    | zero => omega
    | succ f =>
      refine ⟨fun hd => ?_, fun hd => ?_, fun st hs hnd hnf ht => ?_⟩
      · simp only [wait_for_model_deployment]
        rw [show i + 0 = i by omega] at hd
        rw [hd]; simp
      · simp only [wait_for_model_deployment]
        rw [show i + 0 = i by omega] at hd
        rw [hd]; simp
      · simp only [wait_for_model_deployment]
        rw [show i + 0 = i by omega] at hs ht
        rw [hs]
        simp [hnd, hnf, ht]
  | succ n ih =>
    intro i fuel hcont hf
    cases fuel with
    | zero => omega
    | succ f =>
      have h0 : deploy_continues resp elapsed timeout i = true := by
        simpa using hcont 0 (by omega)
      have hidx : i + (n + 1) = (i + 1) + n := by omega
      have hrec := ih (i + 1) f
        (fun m hm => by
          have := hcont (m + 1) (by omega)
          have he : i + (m + 1) = (i + 1) + m := by omega
          rwa [he] at this)
        (by omega)
      rw [hidx]
      cases hr : resp i with
      | none =>
        simpa [wait_for_model_deployment, hr] using hrec
      | some st =>
        have hcc := h0
        rw [deploy_continues, hr] at hcc
        simp only [Bool.and_eq_true, bne_iff_ne, ne_eq] at hcc
        obtain ⟨⟨hnd, hnf⟩, hble⟩ := hcc
        have hle : ¬ timeout < elapsed i := by
          have := Nat.le_of_ble_eq_true hble
          omega
        simpa [wait_for_model_deployment, hr, hnd, hnf, hle] using hrec

/-- C10: `wait_for_model_deployment` returns `true` at the first status
response with `model_state = 'DEPLOYED'`, `false` at the first `'FAILED'`
response, and `false` once the elapsed time exceeds its `timeout` argument
on a successful check — but the elapsed check is only reached on
iterations whose status request succeeds, so when the request raises on
every iteration the function never returns, despite its timeout. -/
theorem wait_for_model_deployment_spec :
    (∀ (resp : Nat → Option String) (elapsed : Nat → Nat) (timeout : Nat),
      (∀ m, resp m = none) →
      ∀ i fuel, wait_for_model_deployment resp elapsed timeout i fuel = none) ∧
    (∀ (resp : Nat → Option String) (elapsed : Nat → Nat) (timeout n fuel : Nat),
      (∀ m, m < n → deploy_continues resp elapsed timeout m = true) → n < fuel →
      (resp n = some "DEPLOYED" →
        wait_for_model_deployment resp elapsed timeout 0 fuel = some true) ∧
      (resp n = some "FAILED" →
        wait_for_model_deployment resp elapsed timeout 0 fuel = some false) ∧
      (∀ st, resp n = some st → st ≠ "DEPLOYED" → st ≠ "FAILED" →
        timeout < elapsed n →
        wait_for_model_deployment resp elapsed timeout 0 fuel = some false)) := by
  constructor
  · intro resp elapsed timeout h i fuel
    exact wait_for_model_deployment_all_raise resp elapsed timeout h fuel i
  · intro resp elapsed timeout n fuel hcont hf
    have h := wait_for_model_deployment_first_decision resp elapsed timeout n 0 fuel
      (fun m hm => by simpa using hcont m hm) hf
    simpa using h

/-- Witness for C10: with every request raising, fuel 6 still yields no
return; a `DEPLOYED` at the third check (after two in-flight iterations,
one of them an exception) returns `true`; a late over-timeout check
returns `false`. -/
theorem wait_for_model_deployment_spec_witness :
    wait_for_model_deployment (fun _ => none) (fun _ => 0) 300 0 6 = none ∧
    wait_for_model_deployment
      (fun n => if n = 0 then some "DEPLOYING" else if n = 1 then none
                else some "DEPLOYED")
      (fun n => 5 * n) 300 0 6 = some true ∧
    wait_for_model_deployment
      (fun n => if n < 2 then some "DEPLOYING" else some "DEPLOYING")
      (fun n => 200 * n) 300 0 6 = some false := by
  refine ⟨wait_for_model_deployment_spec.1 (fun _ => none) (fun _ => 0) 300
      (fun m => rfl) 0 6, ?_, ?_⟩
  · exact (wait_for_model_deployment_spec.2
      (fun n => if n = 0 then some "DEPLOYING" else if n = 1 then none
                else some "DEPLOYED")
      (fun n => 5 * n) 300 2 6 (by decide) (by decide)).1 (by decide)
  · exact (wait_for_model_deployment_spec.2
      (fun n => if n < 2 then some "DEPLOYING" else some "DEPLOYING")
      (fun n => 200 * n) 300 2 6 (by decide) (by decide)).2.2
      "DEPLOYING" (by decide) (by decide) (by decide) (by decide)

/-! ## Lemmas about `pandas_dtype_to_opensearch` -/

theorem lookup_mem_values :
    ∀ (l : List (String × String)) (k v : String),
      l.lookup k = some v → v ∈ l.map Prod.snd := by
  intro l
  induction l with
  | nil => intro k v h; simp [List.lookup] at h
  | cons p t ih =>
    intro k v h
    obtain ⟨a, b⟩ := p
    cases hk : (k == a) with
    | true =>
      simp [List.lookup, hk] at h
      simp [h]
    | false =>
      simp [List.lookup, hk] at h
      exact List.mem_cons_of_mem _ (ih k v h)

/-- C9: `pandas_dtype_to_opensearch` is total with outputs in
`{long, integer, double, float, boolean, text, date, keyword}`; it first
applies the exact lowercase table (faithfully listed in `dtype_mapping`),
and on no exact match checks the substrings `int`, `float`, `bool`,
`datetime` in that order, defaulting to `text`. -/
theorem pandas_dtype_total_and_shape :
    ∀ s : String,
      pandas_dtype_to_opensearch s ∈
        ["long", "integer", "double", "float", "boolean", "text", "date",
         "keyword"] ∧
      (∀ v, dtype_mapping.lookup (pyLower s) = some v →
        pandas_dtype_to_opensearch s = v) ∧
      (dtype_mapping.lookup (pyLower s) = none →
        pandas_dtype_to_opensearch s =
          (if py_in "int".data (pyLower s).data then "long"
           else if py_in "float".data (pyLower s).data then "double"
           else if py_in "bool".data (pyLower s).data then "boolean"
           else if py_in "datetime".data (pyLower s).data then "date"
           else "text")) := by
  intro s
  refine ⟨?_, ?_, ?_⟩
  · cases h : dtype_mapping.lookup (pyLower s) with
    | some t =>
      have hmem : ∀ v ∈ dtype_mapping.map Prod.snd,
          v ∈ ["long", "integer", "double", "float", "boolean", "text",
               "date", "keyword"] := by decide
      have := hmem t (lookup_mem_values dtype_mapping (pyLower s) t h)
      simpa [pandas_dtype_to_opensearch, h] using this
    | none =>
      simp only [pandas_dtype_to_opensearch, h]
      split_ifs <;> simp
  · intro v h
    simp [pandas_dtype_to_opensearch, h]
  · intro h
    simp [pandas_dtype_to_opensearch, h]

/-- Witness for C9, at inputs exercising the table and the fallbacks:
`Int64` (lowercased exact match), `uint8` (substring `int`), and an
unknown dtype falling through to `text`. -/
theorem pandas_dtype_total_and_shape_witness :
    pandas_dtype_to_opensearch "Int64" = "long" ∧
    pandas_dtype_to_opensearch "uint8" = "long" ∧
    pandas_dtype_to_opensearch "complex128" = "text" ∧
    pandas_dtype_to_opensearch "uint8" ∈
      ["long", "integer", "double", "float", "boolean", "text", "date",
       "keyword"] := by
  refine ⟨(pandas_dtype_total_and_shape "Int64").2.1 "long" (by decide), ?_, ?_,
    (pandas_dtype_total_and_shape "uint8").1⟩
  · have h := (pandas_dtype_total_and_shape "uint8").2.2 (by decide)
    rw [h]; decide
  · have h := (pandas_dtype_total_and_shape "complex128").2.2 (by decide)
    rw [h]; decide

/-! ## Lemmas about the search-as-you-type client and handlers -/

theorem falsy_or_blank_of_all_space (q : String)
    (h : q.data.all py_is_space = true) : falsy_or_blank q = true := by
  have hd : q.data.dropWhile py_is_space = [] := by
    rw [List.dropWhile_eq_nil_iff]
    intro x hx
    exact List.all_eq_true.mp h x hx
  have hs : py_strip q = "" := by
    unfold py_strip
    rw [hd]
    rfl
  unfold falsy_or_blank
  rw [hs]
  simp

/-- C8: for every query that is empty or consists only of whitespace,
`OpenSearchClient.search_as_you_type` returns exactly
`{"hits": {"total": {"value": 0}, "hits": []}, "took": 0}` and
`OpenSearchClient.get_suggestions` returns `[]`, in both cases issuing no
request to OpenSearch (request count 0). -/
theorem blank_query_short_circuits (q : String)
    (hq : q.data.all py_is_space = true) :
    (∀ (α σ : Type) (serve : Unit → Except String (OSResponse α σ)),
      client_search_as_you_type serve q =
        (0, Except.ok { took := 0, hits := { total_value := 0, hits := [] } })) ∧
    (∀ (α : Type)
      (serve : Unit → Except String (OSResponse α (List (String × String))))
      (field : String) (size : Nat),
      client_get_suggestions serve q field size = (0, [])) := by
  have hb := falsy_or_blank_of_all_space q hq
  exact ⟨fun α σ serve => by simp [client_search_as_you_type, hb],
    fun α serve field size => by simp [client_get_suggestions, hb]⟩

/-- Witness for C8 at the whitespace query `" \t "`. -/
theorem blank_query_short_circuits_witness :
    client_search_as_you_type (α := Nat) (σ := Nat)
      (fun _ => Except.error "network down") " \t " =
      (0, Except.ok { took := 0, hits := { total_value := 0, hits := [] } }) ∧
    client_get_suggestions (α := Nat)
      (fun _ => Except.error "network down") " \t " "name" 5 = (0, []) := by
  have h := blank_query_short_circuits " \t " (by decide)
  exact ⟨h.1 Nat Nat _, h.2 Nat _ "name" 5⟩

/-- C7: `SearchService._format_response` and the search_as_you_type
`POST /api/search` result transformation are light pass-throughs: same
number of hits in the same order, with each output hit's `id`, `score` and
`source` equal to the input hit's `_id`, `_score` and `_source`, and the
output `total` and `took` equal to `hits.total.value` and `took` of the
response. -/
theorem response_reshaping_passthrough (α σ : Type) (r : OSResponse α σ)
    (st q : String) :
    ((format_response r st).hits.length = r.hits.hits.length ∧
     (format_response r st).total = r.hits.total_value ∧
     (format_response r st).took = r.took ∧
     ∀ i : Nat, ((format_response r st).hits[i]?).map
         (fun h => (h.id, h.score, h.source)) =
       (r.hits.hits[i]?).map (fun h => (h.id, h.score, h.source))) ∧
    ((sayt_transform r q).hits.length = r.hits.hits.length ∧
     (sayt_transform r q).total = r.hits.total_value ∧
     (sayt_transform r q).took = r.took ∧
     ∀ i : Nat, ((sayt_transform r q).hits[i]?).map
         (fun h => (h.id, h.score, h.source)) =
       (r.hits.hits[i]?).map (fun h => (h.id, h.score, h.source))) := by
  refine ⟨⟨by simp [format_response], rfl, rfl, fun i => ?_⟩,
    ⟨by simp [sayt_transform], rfl, rfl, fun i => ?_⟩⟩
  · cases hx : r.hits.hits[i]? <;> simp [format_response, List.getElem?_map, hx]
  · cases hx : r.hits.hits[i]? <;> simp [sayt_transform, List.getElem?_map, hx]

/-! ## Error propagation (C3) -/

/-- Counterexample to C3: the search handler of search_as_you_type
(`main.py` lines 104–106) catches the exception of its OpenSearch call and
propagates it to the HTTP caller as `HTTPException(500, "Search failed:
...")` — a caught error mapped to an HTTP error status, which the claim
says never happens. -/
theorem caught_error_is_propagated :
    sayt_search_route (α := Nat) (σ := Nat) (fun _ => Except.error "boom")
      "writer" =
      Except.error { status := 500, detail := "Search failed: boom" } := by
  have hb : falsy_or_blank "writer" = false := by decide
  simp [sayt_search_route, client_search_as_you_type, hb]

/-- C3 as amended: broad `except Exception` handlers are universal, but
their outcomes split — `OpenSearchClient.search_as_you_type` logs and
re-raises, `OpenSearchClient.get_suggestions` logs and continues with
`[]`, and the FastAPI route handlers propagate caught errors to the caller
as `HTTPException` (mapping to status 500, or re-raising an inner
`HTTPException` unchanged). -/
theorem error_handling_classification :
    ∀ e : String,
      client_search_as_you_type (α := Nat) (σ := Nat)
        (fun _ => Except.error e) "writer" = (1, Except.error e) ∧
      client_get_suggestions (α := Nat) (fun _ => Except.error e)
        "writer" "name" 5 = (1, []) ∧
      sayt_search_route (α := Nat) (σ := Nat) (fun _ => Except.error e)
        "writer" =
        Except.error { status := 500, detail := "Search failed: " ++ e } ∧
      sayt_suggestions_route (Except.error e) "writer" =
        Except.error { status := 500, detail := "Suggestion failed: " ++ e } ∧
      (∀ h : HTTPError,
        execute_search_route (α := Nat) (σ := Nat)
          (Except.error (PyErr.http h)) = Except.error h) ∧
      execute_search_route (α := Nat) (σ := Nat)
        (Except.error (PyErr.exn e)) =
        Except.error { status := 500, detail := e } := by
  intro e
  have hb : falsy_or_blank "writer" = false := by decide
  refine ⟨?_, ?_, ?_, rfl, fun h => rfl, rfl⟩
  · simp [client_search_as_you_type, hb]
  · simp [client_get_suggestions, hb]
  · simp [sayt_search_route, client_search_as_you_type, hb]

/-! ## Concurrency structure of the route handlers (C2) -/

/-- Counterexample to C2: it is not the case that every FastAPI route of
the demo apps runs its units of work strictly sequentially —
`ingest_data_stream` (`POST /api/ingest/ingest-stream`) starts a
background ingestion task with `asyncio.create_task(run_ingestion())`
that runs concurrently with the handler's own SSE streaming loop. -/
theorem route_spawns_background_task :
    (demo_app_routes.all fun r => !spawns_background r.2) = false ∧
    spawns_background ingest_stream_acts = true := by decide

/-- C2 as amended: every FastAPI route handler of the two FastAPI demo
backends performs its awaited calls one at a time in program order with no
concurrent fan-out, with the single exception of
`POST /api/ingest/ingest-stream`, whose handler spawns the ingestion as a
background `asyncio` task concurrent with its streaming loop. -/
theorem routes_sequential_except_ingest_stream :
    ((demo_app_routes.filter fun r => spawns_background r.2).map Prod.fst =
      ["generic POST /api/ingest/ingest-stream"]) ∧
    ((demo_app_routes.filter fun r => !spawns_background r.2).length =
      demo_app_routes.length - 1) := by decide

/-! ## HTTP route surfaces of the three named backends (C5) -/

/-- Counterexample to C5: `POST /api/ingest` is served by none of the three
backends (the generic app's ingestion route is `POST /api/ingest/ingest`),
the generic app serves `GET /health` rather than `GET /api/health` and has
no `POST /api/search` or `POST /api/suggestions` route, and the
opensearch_mcp_server_app defines no HTTP routes at all. -/
theorem claimed_route_surface_refuted :
    (("POST", "/api/ingest") ∉ sayt_routes ∧
     ("POST", "/api/ingest") ∉ generic_app_routes ∧
     ("POST", "/api/ingest") ∉ mcp_app_routes) ∧
    ("GET", "/api/health") ∉ generic_app_routes ∧
    ("POST", "/api/search") ∉ generic_app_routes ∧
    ("POST", "/api/suggestions") ∉ generic_app_routes ∧
    mcp_app_routes = [] := by decide

/-- C5 as amended: of the three backends only search_as_you_type serves
`POST /api/search`, `POST /api/suggestions` and `GET /api/health`, each as
a single pass-through call to OpenSearch; the generic ingest/search app
nests its routes under `/api/auth`, `/api/ingest` and `/api/search`
(ingestion at `POST /api/ingest/ingest`, search at
`POST /api/search/execute`, health at `GET /health`); the
opensearch_mcp_server_app is a Gradio UI defining no HTTP routes. -/
theorem actual_route_surface :
    (("POST", "/api/search") ∈ sayt_routes ∧
     ("POST", "/api/suggestions") ∈ sayt_routes ∧
     ("GET", "/api/health") ∈ sayt_routes) ∧
    (demo_app_routes.lookup "sayt POST /api/search" =
       some [Act.call "client.search"] ∧
     demo_app_routes.lookup "sayt POST /api/suggestions" =
       some [Act.call "client.search"] ∧
     demo_app_routes.lookup "sayt GET /api/health" =
       some [Act.call "cluster.health"]) ∧
    (("POST", "/api/ingest/ingest") ∈ generic_app_routes ∧
     ("POST", "/api/search/execute") ∈ generic_app_routes ∧
     ("GET", "/health") ∈ generic_app_routes) ∧
    mcp_app_routes = [] := by decide

/-! ## Redis scratch state (C4) -/

/-- C4: every Redis write the generic ingest/search app performs (file
metadata, dataframe info, confirmed mappings, KNN selections — the only
four write sites in the repository) is a `setex` with a 3600 × 24 second
TTL, and reading an absent (expired or deleted) key yields `None` for
metadata and mappings and the empty list for KNN selections, rather than
failing. -/
theorem redis_ttl_and_absent_reads :
    (∀ fid meta df mp knn k t v,
      RedisCmd.setex k t v ∈ file_service_writes fid meta df mp knn →
        t = 3600 * 24) ∧
    (∀ (store : String → Option String) (fid : String),
      (store ("file_metadata:" ++ fid) = none →
        get_file_metadata store fid = none) ∧
      (store ("mappings:" ++ fid) = none → get_mappings store fid = none) ∧
      (∀ parse, store ("knn_columns:" ++ fid) = none →
        get_knn_selections store parse fid = [])) := by
  constructor
  · intro fid meta df mp knn k t v h
    simp [file_service_writes, save_uploaded_file_writes, load_dataframe_writes,
      store_mappings_writes, store_knn_selections_writes] at h
    rcases h with ⟨_, h, _⟩ | ⟨_, h, _⟩ | ⟨_, h, _⟩ | ⟨_, h, _⟩ <;> omega
  · intro store fid
    refine ⟨fun h => ?_, fun h => ?_, fun parse h => ?_⟩
    · simp [get_file_metadata, h]
    · simp [get_mappings, h]
    · simp [get_knn_selections, h]

/-- Witness for C4: the metadata write of file `f1` carries the 24-hour
TTL, and reads against an empty store return `none` / `[]`. -/
theorem redis_ttl_and_absent_reads_witness :
    (86400 = 3600 * 24) ∧
    get_file_metadata (fun _ => none) "f1" = none ∧
    get_mappings (fun _ => none) "f1" = none ∧
    get_knn_selections (fun _ => none) (fun _ => []) "f1" = [] := by
  refine ⟨redis_ttl_and_absent_reads.1 "f1" "a" "b" "c" "d"
      "file_metadata:f1" 86400 "a" (by decide), ?_, ?_, ?_⟩
  · exact (redis_ttl_and_absent_reads.2 (fun _ => none) "f1").1 rfl
  · exact (redis_ttl_and_absent_reads.2 (fun _ => none) "f1").2.1 rfl
  · exact (redis_ttl_and_absent_reads.2 (fun _ => none) "f1").2.2 (fun _ => []) rfl

end OSTutorial
